import Mathlib

/-!
Verification of the product-data pipeline (spec-hash, image filter,
pricing/MOQ prefill, title formatter, product validator, catalog importer
retry, health probe) of the `product-data-perfect` repository.

JavaScript strings are modelled as lists of UTF-16 code units (`List Nat`);
JavaScript numbers are modelled as exact rationals (`ℚ`), with
`Math.round(x*100)/100` modelled as exact rounding half-up to 2 decimals.
Nullable numbers are `Option ℚ`.  Network responses are passed in as
explicit oracle values.
-/

/-- A JavaScript string: its list of UTF-16 code units. -/
abbrev JSStr := List Nat

/-- Code units of a Lean string literal (used for concrete inputs). -/
def str (s : String) : JSStr := s.data.map Char.toNat

/-- Model of `String.prototype.toLowerCase` on one ASCII code unit. -/
def toLowerCode (c : Nat) : Nat := if 65 ≤ c ∧ c ≤ 90 then c + 32 else c

/-- Model of `String.prototype.toUpperCase` on one ASCII code unit. -/
def toUpperCode (c : Nat) : Nat := if 97 ≤ c ∧ c ≤ 122 then c - 32 else c

/-- Model of `s.toLowerCase()`. -/
def toLowerStr (s : JSStr) : JSStr := s.map toLowerCode

/-- Model of `s.toUpperCase()`. -/
def toUpperStr (s : JSStr) : JSStr := s.map toUpperCode

/-- Code units treated as whitespace by `trim` / `\s`. -/
def isWsCode (c : Nat) : Bool := c == 32 || c == 9 || c == 10 || c == 11 || c == 12 || c == 13

/-- Model of `s.trim()`: strip leading and trailing whitespace. -/
def trimStr (s : JSStr) : JSStr :=
  ((s.dropWhile isWsCode).reverse.dropWhile isWsCode).reverse

/-- JavaScript default string comparison (`<=` on code-unit sequences),
as used by `Array.prototype.sort()` on an array of strings. -/
def jsLeChars : JSStr → JSStr → Bool
  | [], _ => true
  | _ :: _, [] => false
  | a :: as, b :: bs => if a < b then true else if b < a then false else jsLeChars as bs

/-- The ordering relation behind `Array.prototype.sort()` on strings. -/
def strLe (a b : JSStr) : Prop := jsLeChars a b = true

instance : DecidableRel strLe := fun a b => instDecidableEqBool (jsLeChars a b) true

theorem jsLeChars_antisymm : ∀ (a b : JSStr), jsLeChars a b = true → jsLeChars b a = true → a = b
  | [], [], _, _ => rfl
  | [], _ :: _, _, h2 => by simp [jsLeChars] at h2
  | _ :: _, [], h1, _ => by simp [jsLeChars] at h1
  | a :: as, b :: bs, h1, h2 => by
      simp only [jsLeChars] at h1 h2
      rcases Nat.lt_trichotomy a b with h | h | h
      · rw [if_neg (Nat.lt_asymm h), if_pos h] at h2
        exact absurd h2 (by simp)
      · subst h
        simp only [lt_irrefl, if_neg (lt_irrefl a)] at h1 h2
        exact congrArg (a :: ·) (jsLeChars_antisymm as bs h1 h2)
      · rw [if_neg (Nat.lt_asymm h), if_pos h] at h1
        exact absurd h1 (by simp)

theorem jsLeChars_total : ∀ (a b : JSStr), jsLeChars a b = true ∨ jsLeChars b a = true
  | [], _ => Or.inl rfl
  | _ :: _, [] => Or.inr rfl
  | a :: as, b :: bs => by
      simp only [jsLeChars]
      rcases Nat.lt_trichotomy a b with h | h | h
      · exact Or.inl (by rw [if_pos h])
      · subst h
        simp only [lt_irrefl, if_neg (lt_irrefl a)]
        exact jsLeChars_total as bs
      · exact Or.inr (by rw [if_pos h])

theorem jsLeChars_trans : ∀ (a b c : JSStr),
    jsLeChars a b = true → jsLeChars b c = true → jsLeChars a c = true
  | [], _, _, _, _ => rfl
  | _ :: _, [], _, h1, _ => by simp [jsLeChars] at h1
  | _ :: _, _ :: _, [], _, h2 => by simp [jsLeChars] at h2
  | a :: as, b :: bs, c :: cs, h1, h2 => by
      simp only [jsLeChars] at h1 h2 ⊢
      rcases Nat.lt_trichotomy a b with hab | hab | hab
      · rcases Nat.lt_trichotomy b c with hbc | hbc | hbc
        · rw [if_pos (Nat.lt_trans hab hbc)]
        · subst hbc; rw [if_pos hab]
        · rw [if_neg (Nat.lt_asymm hbc), if_pos hbc] at h2
          exact absurd h2 (by simp)
      · subst hab
        rcases Nat.lt_trichotomy a c with hac | hac | hac
        · rw [if_pos hac]
        · subst hac
          simp only [lt_irrefl, if_neg (lt_irrefl a)] at h1 h2 ⊢
          exact jsLeChars_trans as bs cs h1 h2
        · rw [if_neg (Nat.lt_asymm hac), if_pos hac] at h2
          exact absurd h2 (by simp)
      · rw [if_neg (Nat.lt_asymm hab), if_pos hab] at h1
        exact absurd h1 (by simp)

instance : IsAntisymm JSStr strLe := ⟨jsLeChars_antisymm⟩

instance : IsTotal JSStr strLe := ⟨jsLeChars_total⟩

instance : IsTrans JSStr strLe := ⟨fun a b c => jsLeChars_trans a b c⟩

/-- Model of `Array.prototype.sort()` on an array of strings. -/
def sortJsStrings (l : List JSStr) : List JSStr := List.insertionSort strLe l

/-- The 32-bit signed wraparound (`ToInt32`), as produced by JavaScript `<<` and `&`. -/
def int32Wrap (x : Int) : Int := (x + 2 ^ 31) % 2 ^ 32 - 2 ^ 31

/-- One iteration of the rolling hash of `generateSpecHash`:
`hash = ((hash << 5) - hash) + char; hash = hash & hash`. -/
def specHashStep (h : Int) (c : Nat) : Int := int32Wrap (int32Wrap (h * 32) - h + c)

/-- The rolling-hash loop of `generateSpecHash` over a joined string. -/
def specHashLoop (s : JSStr) : Int := s.foldl specHashStep 0

/-- One base-36 digit, as a code unit (`0`-`9`, `a`-`z`). -/
def base36DigitCode (d : Nat) : Nat := if d < 10 then 48 + d else 87 + d

/-- Fuel-indexed digit expansion behind `toBase36` (structural recursion so
that concrete hashes evaluate inside the kernel; fuel `n+1` always suffices
because the digit count of `n` is at most `n+1`). -/
def toBase36Go : Nat → Nat → JSStr
  | 0, _ => []
  | fuel + 1, n =>
    if n < 36 then [base36DigitCode n]
    else toBase36Go fuel (n / 36) ++ [base36DigitCode (n % 36)]

/-- Model of `Number.prototype.toString(36)` for a non-negative integer. -/
def toBase36 (n : Nat) : JSStr := toBase36Go (n + 1) n

theorem toBase36_length_pos (n : Nat) : 1 ≤ (toBase36 n).length := by
  unfold toBase36 toBase36Go
  split <;> simp

/-- Model of `generateSpecHash` (src/unnamed/part_001 lines 21-30): lowercase-trim each
spec, sort, join with `|`, run the 32-bit rolling hash, base-36 encode the
absolute value. -/
def generateSpecHash (specs : List JSStr) : JSStr :=
  let normalized : JSStr :=
    List.intercalate [124] (sortJsStrings (specs.map fun s => trimStr (toLowerStr s)))
  toBase36 (specHashLoop normalized).natAbs

theorem sortJsStrings_perm_eq {l1 l2 : List JSStr} (h : l1.Perm l2) :
    sortJsStrings l1 = sortJsStrings l2 :=
  List.eq_of_perm_of_sorted
    ((List.perm_insertionSort strLe l1).trans (h.trans (List.perm_insertionSort strLe l2).symm))
    (List.sorted_insertionSort strLe l1) (List.sorted_insertionSort strLe l2)

theorem toLowerCode_toUpperCode (c : Nat) : toLowerCode (toUpperCode c) = toLowerCode c := by
  simp only [toLowerCode, toUpperCode]
  split_ifs <;> omega

theorem toLowerStr_toUpperStr (s : JSStr) : toLowerStr (toUpperStr s) = toLowerStr s := by
  simp only [toLowerStr, toUpperStr, List.map_map]
  exact List.map_congr_left fun c _ => toLowerCode_toUpperCode c

/-- C1: the spec hash is invariant under permutation of the list of
specification strings and under upper-casing every element. -/
theorem generateSpecHash_invariant (l1 l2 : List JSStr) (h : l1.Perm l2) :
    generateSpecHash l1 = generateSpecHash l2 ∧
    generateSpecHash l1 = generateSpecHash (l1.map toUpperStr) := by
  constructor
  · unfold generateSpecHash
    rw [sortJsStrings_perm_eq (h.map _)]
  · unfold generateSpecHash
    have : (l1.map toUpperStr).map (fun s => trimStr (toLowerStr s)) =
        l1.map (fun s => trimStr (toLowerStr s)) := by
      rw [List.map_map]
      exact List.map_congr_left fun s _ => by
        simp only [Function.comp_apply, toLowerStr_toUpperStr]
    rw [this]

/-- C1 witness: the invariance at a concrete list. -/
theorem generateSpecHash_invariant_witness :
    generateSpecHash [str "Power 550W", str " cordless "] =
      generateSpecHash [str " cordless ", str "Power 550W"] ∧
    generateSpecHash [str "Power 550W", str " cordless "] =
      generateSpecHash ([str "Power 550W", str " cordless "].map toUpperStr) :=
  generateSpecHash_invariant _ _ (by decide)

/-! ## Image filter (`filterValidImages`, src/unnamed/part_001 lines 84-106) -/

/-- Decimal rendering of a non-negative integer (for note messages). -/
def toBase10Go : Nat → Nat → JSStr
  | 0, _ => []
  | fuel + 1, n =>
    if n < 10 then [48 + n] else toBase10Go fuel (n / 10) ++ [48 + n % 10]

/-- Decimal rendering `String(n)` for a non-negative integer. -/
def toBase10 (n : Nat) : JSStr := toBase10Go (n + 1) n

/-- Model of `hay.includes(needle)` on JavaScript strings: the needle occurs as a
contiguous segment of the haystack. -/
def includesStr : JSStr → JSStr → Bool
  | [], needle => needle.isEmpty
  | c :: t, needle => needle.isPrefixOf (c :: t) || includesStr t needle

/-- The placeholder-domain blacklist of `filterValidImages`. -/
def invalidDomains : List JSStr :=
  [str "via.placeholder.com", str "placeholder.com", str "placehold.it",
   str "placekitten.com", str "picsum.photos"]

/-- The recognized image file extensions of `filterValidImages`. -/
def validExtensions : List JSStr :=
  [str ".jpg", str ".jpeg", str ".png", str ".gif", str ".webp"]

/-- The recognized format query parameters of `filterValidImages`. -/
def validFormats : List JSStr :=
  [str "fm=jpg", str "fm=jpeg", str "fm=png", str "fm=gif", str "fm=webp",
   str "format=jpg", str "format=png"]

/-- The trusted-CDN host strings of `filterValidImages`. -/
def trustedCdns : List JSStr :=
  [str "images.unsplash.com", str "cdn.shopify.com", str "i.imgur.com",
   str "cloudinary.com", str "res.cloudinary.com"]

/-- The filter callback of `filterValidImages`: keep/drop verdict for one URL
together with the note it pushes, if any.  A non-string or empty (falsy)
entry is dropped silently; the remaining checks run in source order. -/
def imageCheck (url : JSStr) : Bool × Option JSStr :=
  if url.isEmpty then (false, none)
  else
    let urlLower := toLowerStr url
    if invalidDomains.any (fun d => includesStr urlLower d) then
      (false, some (str "Excluded placeholder: " ++ url.take 50 ++ str "..."))
    else if !(str "http://").isPrefixOf url && !(str "https://").isPrefixOf url then
      (false, some (str "Excluded non-HTTP: " ++ url.take 50 ++ str "..."))
    else if !validExtensions.any (fun e => includesStr urlLower e) &&
            !validFormats.any (fun f => includesStr urlLower f) &&
            !trustedCdns.any (fun c => includesStr urlLower c) then
      (false, some (str "Excluded invalid format: " ++ url.take 50 ++ str "..."))
    else (true, none)

/-- Model of `filterValidImages`: filter the candidate URLs, cap the survivors at 3,
and collect the emitted notes. -/
def filterValidImages (images : List JSStr) : List JSStr × List JSStr :=
  let validImages := images.filter (fun u => (imageCheck u).1)
  let notes := images.filterMap (fun u => (imageCheck u).2)
  let limited := validImages.take 3
  let notes2 :=
    if 3 < validImages.length then
      notes ++ [str "Limited images from " ++ toBase10 validImages.length ++ str " to 3"]
    else notes
  (limited, notes2)

theorem imageCheck_true_iff (url : JSStr) (h : (imageCheck url).1 = true) :
    ((str "http://").isPrefixOf url || (str "https://").isPrefixOf url) = true ∧
    invalidDomains.all (fun d => !includesStr (toLowerStr url) d) = true ∧
    (validExtensions.any (fun e => includesStr (toLowerStr url) e) ||
     validFormats.any (fun f => includesStr (toLowerStr url) f) ||
     trustedCdns.any (fun c => includesStr (toLowerStr url) c)) = true := by
  simp only [imageCheck] at h
  split_ifs at h with h0 h1 h2 h3
  refine ⟨?_, ?_, ?_⟩
  · revert h2
    cases (str "http://").isPrefixOf url <;> cases (str "https://").isPrefixOf url <;> simp
  · simp only [List.all_eq_true]
    intro d hd
    simp only [List.any_eq_true, not_exists, not_and] at h1
    push_neg at h1
    have := h1 d hd
    simp [this]
  · revert h3
    cases validExtensions.any (fun e => includesStr (toLowerStr url) e) <;>
      cases validFormats.any (fun f => includesStr (toLowerStr url) f) <;>
      cases trustedCdns.any (fun c => includesStr (toLowerStr url) c) <;> simp

/-- C2: the image filter returns at most 3 URLs, and every returned URL is an
HTTP(S) URL, avoids the placeholder-domain blacklist, and has a recognized
extension, format parameter, or trusted-CDN host. -/
theorem filterValidImages_spec (images : List JSStr) :
    (filterValidImages images).1.length ≤ 3 ∧
    ∀ url ∈ (filterValidImages images).1,
      ((str "http://").isPrefixOf url || (str "https://").isPrefixOf url) = true ∧
      invalidDomains.all (fun d => !includesStr (toLowerStr url) d) = true ∧
      (validExtensions.any (fun e => includesStr (toLowerStr url) e) ||
       validFormats.any (fun f => includesStr (toLowerStr url) f) ||
       trustedCdns.any (fun c => includesStr (toLowerStr url) c)) = true := by
  constructor
  · simp only [filterValidImages]
    exact (List.length_take_le 3 _)
  · intro url hmem
    have hval : (imageCheck url).1 = true := by
      simp only [filterValidImages] at hmem
      have h1 : url ∈ List.filter (fun u => (imageCheck u).1) images :=
        List.mem_of_mem_take hmem
      simpa using (List.mem_filter.mp h1).2
    exact imageCheck_true_iff url hval

/-- C2 witness: the filter at a concrete candidate list, with a concrete
member of the output. -/
theorem filterValidImages_spec_witness :
    (filterValidImages [str "https://i.imgur.com/a.jpg", str "ftp://x.png"]).1.length ≤ 3 ∧
    (((str "http://").isPrefixOf (str "https://i.imgur.com/a.jpg") ||
      (str "https://").isPrefixOf (str "https://i.imgur.com/a.jpg")) = true ∧
     invalidDomains.all
       (fun d => !includesStr (toLowerStr (str "https://i.imgur.com/a.jpg")) d) = true ∧
     (validExtensions.any
        (fun e => includesStr (toLowerStr (str "https://i.imgur.com/a.jpg")) e) ||
      validFormats.any
        (fun f => includesStr (toLowerStr (str "https://i.imgur.com/a.jpg")) f) ||
      trustedCdns.any
        (fun c => includesStr (toLowerStr (str "https://i.imgur.com/a.jpg")) c)) = true) :=
  ⟨(filterValidImages_spec [str "https://i.imgur.com/a.jpg", str "ftp://x.png"]).1,
   (filterValidImages_spec [str "https://i.imgur.com/a.jpg", str "ftp://x.png"]).2
     (str "https://i.imgur.com/a.jpg") (by decide)⟩

/-! ## Pricing prefiller (`prefillPricing`, src/unnamed/part_001 lines 39-72) -/

/-- The three ratios of one entry of `CATEGORY_PRICING_MULTIPLIERS`. -/
structure Multipliers where
  costToSupply : ℚ
  supplyToWholesale : ℚ
  wholesaleToRetail : ℚ
deriving DecidableEq

/-- The table `CATEGORY_PRICING_MULTIPLIERS`, in object-key insertion order. -/
def CATEGORY_PRICING_MULTIPLIERS : List (JSStr × Multipliers) :=
  [(str "default", ⟨1.15, 1.25, 1.5⟩),
   (str "electronics", ⟨1.2, 1.3, 1.6⟩),
   (str "appliances", ⟨1.15, 1.25, 1.4⟩),
   (str "cleaning", ⟨1.12, 1.2, 1.35⟩)]

/-- Model of `Object.keys(CATEGORY_PRICING_MULTIPLIERS).find(k =>
category.toLowerCase().includes(k))` with fallback to the default key, then the table lookup. -/
def multipliersFor (category : JSStr) : Multipliers :=
  match CATEGORY_PRICING_MULTIPLIERS.find? (fun kv => includesStr (toLowerStr category) kv.1) with
  | some kv => kv.2
  | none => ⟨1.15, 1.25, 1.5⟩

/-- The four nullable pricing tiers. -/
structure Pricing where
  cost_price : Option ℚ
  supply_price : Option ℚ
  wholesale_price : Option ℚ
  retail_price : Option ℚ
deriving DecidableEq

/-- JavaScript truthiness-and-positivity `v && v > 0` on a nullable number;
its negation is the prefill trigger `!v || v <= 0`. -/
def isPosNum : Option ℚ → Bool
  | none => false
  | some x => decide (0 < x)

/-- JavaScript `a || b` on a nullable number `a` (null and 0 are falsy). -/
def jsOr (o : Option ℚ) (d : ℚ) : ℚ :=
  match o with
  | none => d
  | some x => if x = 0 then d else x

/-- Reading a number field that the current branch knows to be set
(`numOf (some x) = x`; the 0 default is never reached on the branch). -/
def numOf (o : Option ℚ) : ℚ := o.getD 0

/-- Model of `Math.round(x * 100) / 100` (JavaScript `Math.round` is half-up). -/
def round2 (x : ℚ) : ℚ := (⌊x * 100 + 1 / 2⌋ : ℚ) / 100

/-- The flat default ladder of the final `else` branch of `prefillPricing`
(seed retail 199.99, derive the three lower tiers downward). -/
def defaultLadder (m : Multipliers) : Pricing :=
  let estimatedRetail : ℚ := 199.99
  let w := round2 (estimatedRetail / m.wholesaleToRetail)
  let s := round2 (w / m.supplyToWholesale)
  let c := round2 (s / m.costToSupply)
  ⟨some c, some s, some w, some estimatedRetail⟩

/-- Model of `prefillPricing` (src/unnamed/part_001 lines 49-72): fill the missing
tiers in whichever direction data is available, collecting the names of the
filled fields in push order. -/
def prefillPricing (p : Pricing) (category : JSStr) : Pricing × List JSStr :=
  let m := multipliersFor category
  if isPosNum p.retail_price then
    let retail := numOf p.retail_price
    let w : Option ℚ × List JSStr :=
      if !isPosNum p.wholesale_price then
        (some (round2 (retail / m.wholesaleToRetail)), [str "wholesale_price"])
      else (p.wholesale_price, [])
    let s : Option ℚ × List JSStr :=
      if !isPosNum p.supply_price then
        (some (round2 (jsOr w.1 (retail / m.wholesaleToRetail) / m.supplyToWholesale)),
         [str "supply_price"])
      else (p.supply_price, [])
    let c : Option ℚ × List JSStr :=
      if !isPosNum p.cost_price then
        (some (round2 (jsOr s.1 (retail / m.wholesaleToRetail / m.supplyToWholesale) /
           m.costToSupply)),
         [str "cost_price"])
      else (p.cost_price, [])
    (⟨c.1, s.1, w.1, p.retail_price⟩, w.2 ++ s.2 ++ c.2)
  else if isPosNum p.cost_price then
    let cost := numOf p.cost_price
    let s : Option ℚ × List JSStr :=
      if !isPosNum p.supply_price then
        (some (round2 (cost * m.costToSupply)), [str "supply_price"])
      else (p.supply_price, [])
    let w : Option ℚ × List JSStr :=
      if !isPosNum p.wholesale_price then
        (some (round2 (jsOr s.1 (cost * m.costToSupply) * m.supplyToWholesale)),
         [str "wholesale_price"])
      else (p.wholesale_price, [])
    let r : Option ℚ × List JSStr :=
      if !isPosNum p.retail_price then
        (some (round2 (jsOr w.1 (cost * m.costToSupply * m.supplyToWholesale) *
           m.wholesaleToRetail)),
         [str "retail_price"])
      else (p.retail_price, [])
    (⟨p.cost_price, s.1, w.1, r.1⟩, s.2 ++ w.2 ++ r.2)
  else
    (defaultLadder m,
     [str "cost_price", str "supply_price", str "wholesale_price", str "retail_price"])

/-- C3: for retail 199.99, everything else null, category "cleaning", the
prefiller derives wholesale 148.14, supply 123.45, cost 110.22 with the
cleaning multipliers, keeps retail 199.99, and reports exactly the three
derived field names. -/
theorem prefillPricing_cleaning_retail :
    prefillPricing ⟨none, none, none, some 199.99⟩ (str "cleaning") =
      (⟨some 110.22, some 123.45, some 148.14, some 199.99⟩,
       [str "wholesale_price", str "supply_price", str "cost_price"]) := by
  have hm : multipliersFor (str "cleaning") = ⟨1.12, 1.2, 1.35⟩ := rfl
  have hw : round2 ((19999 : ℚ) / 135) = 7407 / 50 := by
    unfold round2
    rw [show ⌊(19999 : ℚ) / 135 * 100 + 1 / 2⌋ = 14814 by rw [Int.floor_eq_iff]; norm_num]
    norm_num
  have hs : round2 ((2469 : ℚ) / 20) = 2469 / 20 := by
    unfold round2
    rw [show ⌊(2469 : ℚ) / 20 * 100 + 1 / 2⌋ = 12345 by rw [Int.floor_eq_iff]; norm_num]
    norm_num
  have hc : round2 ((12345 : ℚ) / 112) = 5511 / 50 := by
    unfold round2
    rw [show ⌊(12345 : ℚ) / 112 * 100 + 1 / 2⌋ = 11022 by rw [Int.floor_eq_iff]; norm_num]
    norm_num
  simp only [prefillPricing, hm, isPosNum, numOf, jsOr, Option.getD]
  norm_num [hw, hs, hc]

theorem round2_gt (x : ℚ) : x - 1 / 200 < round2 x := by
  unfold round2
  have h := Int.lt_floor_add_one (x * 100 + 1 / 2)
  have h2 : x * 100 - 1 / 2 < (⌊x * 100 + 1 / 2⌋ : ℚ) := by
    have := Int.floor_le (x * 100 + 1 / 2)
    linarith [Int.lt_floor_add_one (x * 100 + 1 / 2)]
  linarith

theorem multipliersFor_mem (category : JSStr) :
    multipliersFor category ∈ CATEGORY_PRICING_MULTIPLIERS.map Prod.snd := by
  unfold multipliersFor
  cases hf : CATEGORY_PRICING_MULTIPLIERS.find? (fun kv => includesStr (toLowerStr category) kv.1) with
  | none =>
      simp only [CATEGORY_PRICING_MULTIPLIERS, List.map_cons, List.map_nil]
      exact List.mem_cons_self _ _
  | some kv => exact List.mem_map_of_mem _ (List.mem_of_find?_eq_some hf)

theorem defaultLadder_pos (m : Multipliers)
    (hm : m ∈ CATEGORY_PRICING_MULTIPLIERS.map Prod.snd) :
    isPosNum (defaultLadder m).cost_price = true ∧
    isPosNum (defaultLadder m).supply_price = true ∧
    isPosNum (defaultLadder m).wholesale_price = true ∧
    isPosNum (defaultLadder m).retail_price = true := by
  simp only [CATEGORY_PRICING_MULTIPLIERS, List.map_cons, List.map_nil, List.mem_cons,
    List.not_mem_nil, or_false] at hm
  have e112 : (1.12 : ℚ) = 28 / 25 := by norm_num
  have e115 : (1.15 : ℚ) = 23 / 20 := by norm_num
  have e12 : (1.2 : ℚ) = 6 / 5 := by norm_num
  have e125 : (1.25 : ℚ) = 5 / 4 := by norm_num
  have e13 : (1.3 : ℚ) = 13 / 10 := by norm_num
  rcases hm with h | h | h | h <;> subst h <;>
    simp only [defaultLadder, isPosNum, decide_eq_true_eq]
  · rw [e125, e115]
    refine ⟨?_, ?_, ?_, by norm_num⟩
    · linarith [round2_gt ((199.99 : ℚ) / 1.5),
        round2_gt (round2 ((199.99 : ℚ) / 1.5) / (5 / 4)),
        round2_gt (round2 (round2 ((199.99 : ℚ) / 1.5) / (5 / 4)) / (23 / 20))]
    · linarith [round2_gt ((199.99 : ℚ) / 1.5),
        round2_gt (round2 ((199.99 : ℚ) / 1.5) / (5 / 4))]
    · linarith [round2_gt ((199.99 : ℚ) / 1.5)]
  · rw [e13, e12]
    refine ⟨?_, ?_, ?_, by norm_num⟩
    · linarith [round2_gt ((199.99 : ℚ) / 1.6),
        round2_gt (round2 ((199.99 : ℚ) / 1.6) / (13 / 10)),
        round2_gt (round2 (round2 ((199.99 : ℚ) / 1.6) / (13 / 10)) / (6 / 5))]
    · linarith [round2_gt ((199.99 : ℚ) / 1.6),
        round2_gt (round2 ((199.99 : ℚ) / 1.6) / (13 / 10))]
    · linarith [round2_gt ((199.99 : ℚ) / 1.6)]
  · rw [e125, e115]
    refine ⟨?_, ?_, ?_, by norm_num⟩
    · linarith [round2_gt ((199.99 : ℚ) / 1.4),
        round2_gt (round2 ((199.99 : ℚ) / 1.4) / (5 / 4)),
        round2_gt (round2 (round2 ((199.99 : ℚ) / 1.4) / (5 / 4)) / (23 / 20))]
    · linarith [round2_gt ((199.99 : ℚ) / 1.4),
        round2_gt (round2 ((199.99 : ℚ) / 1.4) / (5 / 4))]
    · linarith [round2_gt ((199.99 : ℚ) / 1.4)]
  · rw [e12, e112]
    refine ⟨?_, ?_, ?_, by norm_num⟩
    · linarith [round2_gt ((199.99 : ℚ) / 1.35),
        round2_gt (round2 ((199.99 : ℚ) / 1.35) / (6 / 5)),
        round2_gt (round2 (round2 ((199.99 : ℚ) / 1.35) / (6 / 5)) / (28 / 25))]
    · linarith [round2_gt ((199.99 : ℚ) / 1.35),
        round2_gt (round2 ((199.99 : ℚ) / 1.35) / (6 / 5))]
    · linarith [round2_gt ((199.99 : ℚ) / 1.35)]

/-- C10: when neither retail nor cost is a positive number, the prefiller
overwrites all four tiers with the flat 199.99 ladder (discarding any
positive supply or wholesale), reports all four field names, and all four
returned tiers are positive. -/
theorem prefillPricing_default_branch (p : Pricing) (category : JSStr)
    (hr : isPosNum p.retail_price = false) (hc : isPosNum p.cost_price = false) :
    prefillPricing p category =
      (defaultLadder (multipliersFor category),
       [str "cost_price", str "supply_price", str "wholesale_price", str "retail_price"]) ∧
    isPosNum (prefillPricing p category).1.cost_price = true ∧
    isPosNum (prefillPricing p category).1.supply_price = true ∧
    isPosNum (prefillPricing p category).1.wholesale_price = true ∧
    isPosNum (prefillPricing p category).1.retail_price = true := by
  have heq : prefillPricing p category =
      (defaultLadder (multipliersFor category),
       [str "cost_price", str "supply_price", str "wholesale_price", str "retail_price"]) := by
    unfold prefillPricing
    rw [hr, hc]
    simp
  refine ⟨heq, ?_⟩
  rw [heq]
  exact defaultLadder_pos (multipliersFor category) (multipliersFor_mem category)

/-- C10 witness: concrete input with positive supply and wholesale but no
retail or cost; both are discarded in favour of the default ladder. -/
theorem prefillPricing_default_branch_witness :
    prefillPricing ⟨none, some 50, some 60, none⟩ (str "misc") =
      (defaultLadder (multipliersFor (str "misc")),
       [str "cost_price", str "supply_price", str "wholesale_price", str "retail_price"]) ∧
    isPosNum (prefillPricing ⟨none, some 50, some 60, none⟩ (str "misc")).1.cost_price = true ∧
    isPosNum (prefillPricing ⟨none, some 50, some 60, none⟩ (str "misc")).1.supply_price = true ∧
    isPosNum (prefillPricing ⟨none, some 50, some 60, none⟩ (str "misc")).1.wholesale_price = true ∧
    isPosNum (prefillPricing ⟨none, some 50, some 60, none⟩ (str "misc")).1.retail_price = true :=
  prefillPricing_default_branch ⟨none, some 50, some 60, none⟩ (str "misc") rfl rfl

/-! ## MOQ prefiller (`prefillMoq`, src/unnamed/part_001 lines 47, 74-82) -/

/-- The supplier-trade section (name, HS code, four nullable MOQ tiers). -/
structure SupplierTrade where
  supplier_name : JSStr
  hs_code : JSStr
  moq : Option ℚ
  moq_exclusive_importer : Option ℚ
  moq_distributor : Option ℚ
  moq_retailer : Option ℚ
deriving DecidableEq

/-- The fixed `DEFAULT_MOQ` object. -/
structure MoqDefaults where
  base : ℚ
  exclusive_importer : ℚ
  distributor : ℚ
  retailer : ℚ

/-- The constant `DEFAULT_MOQ` with base 100, exclusive importer 500, distributor 200, retailer 50. -/
def DEFAULT_MOQ : MoqDefaults := ⟨100, 500, 200, 50⟩

/-- The per-tier trigger `v === null || v <= 0` of `prefillMoq`. -/
def moqNeedsDefault : Option ℚ → Bool
  | none => true
  | some x => decide (x ≤ 0)

/-- Model of `prefillMoq` (src/unnamed/part_001 lines 74-82): replace each null or
non-positive MOQ tier with its fixed default, collecting the filled field
names in push order. -/
def prefillMoq (st : SupplierTrade) : SupplierTrade × List JSStr :=
  let m1 : Option ℚ × List JSStr :=
    if moqNeedsDefault st.moq then (some DEFAULT_MOQ.base, [str "moq"]) else (st.moq, [])
  let m2 : Option ℚ × List JSStr :=
    if moqNeedsDefault st.moq_exclusive_importer then
      (some DEFAULT_MOQ.exclusive_importer, [str "moq_exclusive_importer"])
    else (st.moq_exclusive_importer, [])
  let m3 : Option ℚ × List JSStr :=
    if moqNeedsDefault st.moq_distributor then
      (some DEFAULT_MOQ.distributor, [str "moq_distributor"])
    else (st.moq_distributor, [])
  let m4 : Option ℚ × List JSStr :=
    if moqNeedsDefault st.moq_retailer then
      (some DEFAULT_MOQ.retailer, [str "moq_retailer"])
    else (st.moq_retailer, [])
  (⟨st.supplier_name, st.hs_code, m1.1, m2.1, m3.1, m4.1⟩, m1.2 ++ m2.2 ++ m3.2 ++ m4.2)

/-- C7: with all four MOQ tiers null the prefiller returns exactly the
defaults 100/500/200/50 and reports all four field names; any tier that is
already a positive number is left unchanged. -/
theorem prefillMoq_spec (st : SupplierTrade) :
    (st.moq = none → st.moq_exclusive_importer = none → st.moq_distributor = none →
      st.moq_retailer = none →
      prefillMoq st =
        (⟨st.supplier_name, st.hs_code, some 100, some 500, some 200, some 50⟩,
         [str "moq", str "moq_exclusive_importer", str "moq_distributor",
          str "moq_retailer"])) ∧
    (∀ x : ℚ, 0 < x →
      (st.moq = some x → (prefillMoq st).1.moq = some x) ∧
      (st.moq_exclusive_importer = some x →
        (prefillMoq st).1.moq_exclusive_importer = some x) ∧
      (st.moq_distributor = some x → (prefillMoq st).1.moq_distributor = some x) ∧
      (st.moq_retailer = some x → (prefillMoq st).1.moq_retailer = some x)) := by
  constructor
  · intro h1 h2 h3 h4
    simp [prefillMoq, h1, h2, h3, h4, moqNeedsDefault, DEFAULT_MOQ]
  · intro x hx
    have hneg : moqNeedsDefault (some x) = false := by
      simp [moqNeedsDefault, not_le.mpr hx]
    refine ⟨fun h => ?_, fun h => ?_, fun h => ?_, fun h => ?_⟩ <;>
      simp [prefillMoq, h, hneg]

/-- C7 witness: the all-null defaults case and preservation of a concrete
positive tier. -/
theorem prefillMoq_spec_witness :
    prefillMoq ⟨str "Acme", str "", none, none, none, none⟩ =
      (⟨str "Acme", str "", some 100, some 500, some 200, some 50⟩,
       [str "moq", str "moq_exclusive_importer", str "moq_distributor",
        str "moq_retailer"]) ∧
    ((⟨str "Acme", str "", some 7, none, none, none⟩ : SupplierTrade).moq = some 7 →
      (prefillMoq ⟨str "Acme", str "", some 7, none, none, none⟩).1.moq = some 7) :=
  ⟨(prefillMoq_spec ⟨str "Acme", str "", none, none, none, none⟩).1 rfl rfl rfl rfl,
   ((prefillMoq_spec ⟨str "Acme", str "", some 7, none, none, none⟩).2 7 (by norm_num)).1⟩

/-! ## Product validator (`validateProduct`, src/unnamed/part_005) -/

/-- The four review-note kinds. -/
inductive ReviewNoteType
  | source
  | estimate
  | assumption
  | missing
deriving DecidableEq

/-- One review note (`{type, field?, message}`). -/
structure ReviewNote where
  ty : ReviewNoteType
  field : Option JSStr
  message : JSStr
deriving DecidableEq

/-- The logistics fields read by the validator. -/
structure Logistics where
  manufacturing_time : JSStr
deriving DecidableEq

/-- The sales-content fields read by the validator. -/
structure SalesContent where
  key_specifications : List JSStr
  applications : List JSStr
deriving DecidableEq

/-- The description fields read by the validator. -/
structure Descriptions where
  product_overview : JSStr
  key_highlights : List JSStr
deriving DecidableEq

/-- The product record, restricted to the fields `validateProduct` reads
(the remaining free-text sections never influence its result). -/
structure ProductData where
  product_title : JSStr
  sku : JSStr
  category : JSStr
  images : List JSStr
  pricing : Pricing
  supplier_trade : SupplierTrade
  logistics : Logistics
  sales_content : SalesContent
  descriptions : Descriptions
  review_notes : List ReviewNote
deriving DecidableEq

/-- The error-category tag of a validation error. -/
inductive ErrCategory
  | title
  | sku
  | category
  | images
  | pricing
  | moq
  | specifications
  | logistics
  | review_notes
deriving DecidableEq

/-- A blocking validation error. -/
structure ValidationError where
  field : JSStr
  message : JSStr
  category : ErrCategory
deriving DecidableEq

/-- A non-blocking validation warning. -/
structure ValidationWarning where
  field : JSStr
  message : JSStr
deriving DecidableEq

/-- The validator result. -/
structure ValidationResult where
  isValid : Bool
  errors : List ValidationError
  warnings : List ValidationWarning
deriving DecidableEq

/-- One `[a-z0-9]` code unit. -/
def isLowerDigitCode (c : Nat) : Bool :=
  decide (97 ≤ c ∧ c ≤ 122) || decide (48 ≤ c ∧ c ≤ 57)

/-- Model of the regex `SKU_PATTERN`, two or more nonempty
`[a-z0-9]` groups joined by single hyphens. -/
def skuPatternTest (s : JSStr) : Bool :=
  let groups := s.splitOn 45
  decide (2 ≤ groups.length) && groups.all (fun g => !g.isEmpty && g.all isLowerDigitCode)

/-- Model of the first-capital test of the validator. -/
def firstCapital (w : JSStr) : Bool :=
  match w with
  | [] => false
  | c :: _ => decide (65 ≤ c ∧ c ≤ 90)

/-- Title block of `validateProduct` (lines 27-50). -/
def titleSection (d : ProductData) : List ValidationError × List ValidationWarning :=
  if d.product_title.isEmpty || (trimStr d.product_title).isEmpty then
    ([⟨str "product_title", str "Product title is required", ErrCategory.title⟩], [])
  else
    let words := (trimStr d.product_title).splitOn 32
    let errs :=
      if words.length < 2 then
        [⟨str "product_title",
          str "Title must include at least Brand + Model (minimum 2 parts)",
          ErrCategory.title⟩]
      else []
    let warns :=
      match words with
      | [] => []
      | w :: _ =>
        if !w.isEmpty && !firstCapital w then
          [⟨str "product_title", str "Brand name should start with a capital letter"⟩]
        else []
    (errs, warns)

/-- SKU block of `validateProduct` (lines 52-65). -/
def skuSection (d : ProductData) : List ValidationError × List ValidationWarning :=
  if d.sku.isEmpty || (trimStr d.sku).isEmpty then
    ([⟨str "sku", str "SKU is required", ErrCategory.sku⟩], [])
  else if !skuPatternTest d.sku then
    ([], [⟨str "sku", str "SKU should be lowercase, hyphenated (e.g., jimmy-h8-flex)"⟩])
  else ([], [])

/-- Category block of `validateProduct` (lines 67-74). -/
def categorySection (d : ProductData) : List ValidationError :=
  if d.category.isEmpty || (trimStr d.category).isEmpty then
    [⟨str "category", str "Category is required", ErrCategory.category⟩]
  else []

/-- Images block of `validateProduct` (lines 76-96; warnings only).  The
`new URL(url)` success test is passed in as the oracle `urlOk`. -/
def imagesSection (urlOk : JSStr → Bool) (d : ProductData) : List ValidationWarning :=
  if d.images.isEmpty then
    [⟨str "images",
      str "No product images - product will be imported as draft for manual image addition"⟩]
  else if d.images.length < 3 then
    [⟨str "images",
      str "Only " ++ toBase10 d.images.length ++
        str " image(s) found - recommend at least 3 for better presentation"⟩]
  else
    let invalidUrls := d.images.filter (fun u => !urlOk u)
    if !invalidUrls.isEmpty then
      [⟨str "images", toBase10 invalidUrls.length ++ str " image(s) may have invalid URLs"⟩]
    else []

/-- Model of `hasSomePricing` (lines 100-104): some tier is non-null and positive. -/
def hasSomePricing (p : Pricing) : Bool :=
  isPosNum p.cost_price || isPosNum p.supply_price ||
  isPosNum p.wholesale_price || isPosNum p.retail_price

/-- One per-tier `=== null || <= 0` warning of the pricing block. -/
def missingTierWarning (o : Option ℚ) (fieldName message : JSStr) : List ValidationWarning :=
  match o with
  | none => [⟨fieldName, message⟩]
  | some x => if x ≤ 0 then [⟨fieldName, message⟩] else []

/-- Pricing block of `validateProduct` (lines 98-138). -/
def pricingSection (d : ProductData) : List ValidationError × List ValidationWarning :=
  if !hasSomePricing d.pricing then
    ([⟨str "pricing", str "At least one pricing field must be set", ErrCategory.pricing⟩], [])
  else
    ([],
     missingTierWarning d.pricing.cost_price (str "pricing.cost_price")
       (str "Cost price is missing or zero - using estimated value") ++
     missingTierWarning d.pricing.supply_price (str "pricing.supply_price")
       (str "Supply price is missing or zero - using estimated value") ++
     missingTierWarning d.pricing.wholesale_price (str "pricing.wholesale_price")
       (str "Wholesale price is missing or zero - using estimated value") ++
     missingTierWarning d.pricing.retail_price (str "pricing.retail_price")
       (str "Retail price is missing or zero - using estimated value"))

/-- Pricing-hierarchy block of `validateProduct` (lines 140-165): all four
tiers truthy (non-null, nonzero), then three order checks. -/
def hierarchyWarnings (p : Pricing) : List ValidationWarning :=
  match p.cost_price, p.supply_price, p.wholesale_price, p.retail_price with
  | some c, some s, some w, some r =>
    if c ≠ 0 ∧ s ≠ 0 ∧ w ≠ 0 ∧ r ≠ 0 then
      (if s ≤ c then [⟨str "pricing", str "Cost price should be less than supply price"⟩]
       else []) ++
      (if w ≤ s then [⟨str "pricing", str "Supply price should be less than wholesale price"⟩]
       else []) ++
      (if r ≤ w then [⟨str "pricing", str "Wholesale price should be less than retail price"⟩]
       else [])
    else []
  | _, _, _, _ => []

/-- MOQ block of `validateProduct` (lines 167-191; warnings only). -/
def moqWarnings (st : SupplierTrade) : List ValidationWarning :=
  (if moqNeedsDefault st.moq then
     [⟨str "supplier_trade.moq", str "Base MOQ is missing - using default value"⟩]
   else []) ++
  (if moqNeedsDefault st.moq_exclusive_importer then
     [⟨str "supplier_trade.moq_exclusive_importer",
       str "MOQ for Exclusive Importer using default value"⟩]
   else []) ++
  (if moqNeedsDefault st.moq_distributor then
     [⟨str "supplier_trade.moq_distributor", str "MOQ for Distributor using default value"⟩]
   else []) ++
  (if moqNeedsDefault st.moq_retailer then
     [⟨str "supplier_trade.moq_retailer", str "MOQ for Retailer using default value"⟩]
   else [])

/-- Supplier/logistics block of `validateProduct` (lines 193-211). -/
def supplierWarnings (d : ProductData) : List ValidationWarning :=
  (if d.supplier_trade.supplier_name.isEmpty ||
      (trimStr d.supplier_trade.supplier_name).isEmpty then
     [⟨str "supplier_trade.supplier_name", str "Supplier name should be specified"⟩]
   else []) ++
  (if d.supplier_trade.hs_code.isEmpty || (trimStr d.supplier_trade.hs_code).isEmpty then
     [⟨str "supplier_trade.hs_code", str "HS Code should be specified for import compliance"⟩]
   else []) ++
  (if d.logistics.manufacturing_time.isEmpty ||
      (trimStr d.logistics.manufacturing_time).isEmpty then
     [⟨str "logistics.manufacturing_time", str "Manufacturing time should be specified"⟩]
   else [])

/-- Specifications block of `validateProduct` (lines 213-226). -/
def specificationsSection (d : ProductData) : List ValidationError × List ValidationWarning :=
  ((if d.sales_content.key_specifications.isEmpty then
      [⟨str "sales_content.key_specifications",
        str "At least one key specification is required", ErrCategory.specifications⟩]
    else []),
   (if d.sales_content.applications.isEmpty then
      [⟨str "sales_content.applications", str "Applications/use cases should be specified"⟩]
    else []))

/-- Descriptions block of `validateProduct` (lines 228-240). -/
def descriptionsWarnings (d : ProductData) : List ValidationWarning :=
  (if d.descriptions.product_overview.isEmpty ||
      (trimStr d.descriptions.product_overview).isEmpty then
     [⟨str "descriptions.product_overview", str "Product overview is recommended"⟩]
   else []) ++
  (if d.descriptions.key_highlights.isEmpty then
     [⟨str "descriptions.key_highlights", str "Key highlights should be included"⟩]
   else [])

/-- Review-notes block of `validateProduct` (lines 242-248). -/
def reviewNotesWarnings (d : ProductData) : List ValidationWarning :=
  if d.review_notes.isEmpty then
    [⟨str "review_notes", str "No review notes found - data sources should be documented"⟩]
  else []

/-- Model of `validateProduct` (src/unnamed/part_005 lines 23-255): run all the rule
blocks in source order, concatenating errors and warnings in push order;
`isValid` iff no errors. -/
def validateProduct (urlOk : JSStr → Bool) (d : ProductData) : ValidationResult :=
  let t := titleSection d
  let sk := skuSection d
  let cat := categorySection d
  let img := imagesSection urlOk d
  let pr := pricingSection d
  let hier := hierarchyWarnings d.pricing
  let moqW := moqWarnings d.supplier_trade
  let supW := supplierWarnings d
  let spec := specificationsSection d
  let desc := descriptionsWarnings d
  let rn := reviewNotesWarnings d
  let errors := t.1 ++ sk.1 ++ cat ++ pr.1 ++ spec.1
  let warnings := t.2 ++ sk.2 ++ img ++ pr.2 ++ hier ++ moqW ++ supW ++ spec.2 ++ desc ++ rn
  ⟨decide (errors.length = 0), errors, warnings⟩

/-- C4: a record whose four pricing tiers are all null and whose
key-specifications list is empty gets at least two errors (one pricing, one
specifications) and `isValid = false`. -/
theorem validateProduct_pricing_specs_errors (urlOk : JSStr → Bool) (d : ProductData)
    (hp : d.pricing = ⟨none, none, none, none⟩)
    (hs : d.sales_content.key_specifications = []) :
    (validateProduct urlOk d).isValid = false ∧
    2 ≤ (validateProduct urlOk d).errors.length ∧
    (∃ e ∈ (validateProduct urlOk d).errors, e.category = ErrCategory.pricing) ∧
    (∃ e ∈ (validateProduct urlOk d).errors, e.category = ErrCategory.specifications) := by
  have hpr : (pricingSection d).1 =
      [⟨str "pricing", str "At least one pricing field must be set", ErrCategory.pricing⟩] := by
    simp [pricingSection, hasSomePricing, hp, isPosNum]
  have hsp : (specificationsSection d).1 =
      [⟨str "sales_content.key_specifications",
        str "At least one key specification is required", ErrCategory.specifications⟩] := by
    simp [specificationsSection, hs]
  have herr : (validateProduct urlOk d).errors =
      (titleSection d).1 ++ (skuSection d).1 ++ categorySection d ++
        (pricingSection d).1 ++ (specificationsSection d).1 := rfl
  rw [hpr, hsp] at herr
  have hlen : 2 ≤ (validateProduct urlOk d).errors.length := by
    rw [herr]
    simp only [List.length_append, List.length_cons, List.length_nil]
    omega
  refine ⟨?_, hlen, ?_, ?_⟩
  · have hv : (validateProduct urlOk d).isValid =
        decide ((validateProduct urlOk d).errors.length = 0) := rfl
    rw [hv, decide_eq_false_iff_not]
    omega
  · exact ⟨_, by rw [herr]; exact List.mem_append_left _ (List.mem_append_right _
      (List.mem_cons_self _ _)), rfl⟩
  · exact ⟨_, by rw [herr]; exact List.mem_append_right _ (List.mem_cons_self _ _), rfl⟩

/-- A concrete record with all pricing tiers null and no key specifications
(used by the C4 witness). -/
def sampleMissingDataProduct : ProductData :=
  ⟨str "Jimmy H8 Flex", str "jimmy-h8", str "Vacuums", [],
   ⟨none, none, none, none⟩,
   ⟨str "Acme", str "", none, none, none, none⟩,
   ⟨str ""⟩, ⟨[], []⟩, ⟨str "", []⟩, []⟩

/-- C4 witness: the validator at a concrete record with null pricing and no
specifications. -/
theorem validateProduct_pricing_specs_errors_witness :
    (validateProduct (fun _ => true) sampleMissingDataProduct).isValid = false ∧
    2 ≤ (validateProduct (fun _ => true) sampleMissingDataProduct).errors.length ∧
    (∃ e ∈ (validateProduct (fun _ => true) sampleMissingDataProduct).errors,
      e.category = ErrCategory.pricing) ∧
    (∃ e ∈ (validateProduct (fun _ => true) sampleMissingDataProduct).errors,
      e.category = ErrCategory.specifications) :=
  validateProduct_pricing_specs_errors (fun _ => true) sampleMissingDataProduct rfl rfl

/-! ## Title formatter (src/unnamed/part_003) -/

/-- The parsed brand/model/key-spec triple. -/
structure TitleComponents where
  brand : JSStr
  model : JSStr
  keySpec : JSStr
deriving DecidableEq

/-- Model of `capitalizeFirstLetter` (lines 88-91). -/
def capitalizeFirstLetter (s : JSStr) : JSStr :=
  match s with
  | [] => []
  | c :: rest => toUpperCode c :: rest

/-- One `[0-9]` code unit. -/
def isDigitCode (c : Nat) : Bool := decide (48 ≤ c ∧ c ≤ 57)

/-- One `[a-zA-Z]` code unit. -/
def isLetterCode (c : Nat) : Bool :=
  decide (65 ≤ c ∧ c ≤ 90) || decide (97 ≤ c ∧ c ≤ 122)

/-- One `[a-zA-Z0-9]` code unit. -/
def isAlnumCode (c : Nat) : Bool := isLetterCode c || isDigitCode c

/-- Model of the hyphenated-code regex: exactly one hyphen with nonempty
alphanumeric groups on both sides. -/
def isHyphenatedCode (w : JSStr) : Bool :=
  match w.splitOn 45 with
  | [a, b] => !a.isEmpty && !b.isEmpty && a.all isAlnumCode && b.all isAlnumCode
  | _ => false

/-- Model of `isModelIdentifier` (lines 74-83). -/
def isModelIdentifier (w : JSStr) : Bool :=
  (w.any isLetterCode && w.any isDigitCode && decide (w.length ≤ 10)) || isHyphenatedCode w

/-- Recursion behind whitespace collapsing, carrying a previous-was-whitespace flag so every
maximal whitespace run becomes one space. -/
def collapseWsGo : Bool → JSStr → JSStr
  | _, [] => []
  | prevWs, c :: rest =>
    if isWsCode c then
      if prevWs then collapseWsGo true rest else 32 :: collapseWsGo true rest
    else c :: collapseWsGo false rest

/-- Model of the whitespace-run collapsing replace of the parser. -/
def collapseWs (s : JSStr) : JSStr := collapseWsGo false s

/-- Model of the word extraction of `parseProductName`, trim, collapse, split, drop empties
(lines 17-19). -/
def wordsOfName (s : JSStr) : List JSStr :=
  ((collapseWs (trimStr s)).splitOn 32).filter (fun w => decide (0 < w.length))

/-- The model-token scan of `parseProductName` (lines 33-49): iterate
`i = 1 .. min(words.length, 4) - 1`, concatenating consecutive model tokens,
falling back to the second word at `i = 1`, and stopping at the first
non-model token thereafter.  Fuel 3 covers every reachable iteration. -/
def modelScanGo : Nat → List JSStr → Nat → JSStr → Nat → JSStr × Nat
  | 0, _, _, model, ks => (model, ks)
  | fuel + 1, words, i, model, ks =>
    if i < min words.length 4 then
      let word := words.getD i []
      if isModelIdentifier word then
        modelScanGo fuel words (i + 1)
          (model ++ (if model.isEmpty then [] else [32]) ++ word) (i + 1)
      else if model.isEmpty && i == 1 then
        modelScanGo fuel words (i + 1) word 2
      else (model, ks)
    else (model, ks)

/-- Join a word list with single spaces. -/
def joinSp (ws : List JSStr) : JSStr := List.intercalate [32] ws

/-- Model of `parseProductName` (lines 16-69). -/
def parseProductName (productName : JSStr) : TitleComponents :=
  let words := wordsOfName productName
  match words with
  | [] => ⟨str "Generic", str "Product", str "Standard"⟩
  | w0 :: _ =>
    let brand := capitalizeFirstLetter w0
    let scan := modelScanGo 3 words 1 [] 1
    let mk : JSStr × Nat :=
      if scan.1.isEmpty then
        if h : 1 < words.length then (words.get ⟨1, h⟩, 2) else (str "Series", 1)
      else scan
    let keySpec := joinSp (words.drop mk.2)
    ⟨brand, mk.1, keySpec⟩

/-- The category→key-spec lookup table of `inferKeySpecFromCategory`
(lines 148-162), in object-key insertion order. -/
def categoryKeySpecs : List (JSStr × JSStr) :=
  [(str "vacuum", str "Cordless Vacuum Cleaner"),
   (str "cleaner", str "Deep Clean System"),
   (str "camera", str "Digital Camera"),
   (str "drill", str "Power Drill"),
   (str "tool", str "Power Tool"),
   (str "appliance", str "Home Appliance"),
   (str "electronics", str "Smart Device"),
   (str "kitchen", str "Kitchen Appliance"),
   (str "outdoor", str "Outdoor Equipment"),
   (str "garden", str "Garden Tool"),
   (str "lighting", str "LED Lighting"),
   (str "audio", str "Audio System"),
   (str "video", str "Video Equipment")]

/-- Model of `inferKeySpecFromCategory` (lines 142-171). -/
def inferKeySpecFromCategory (category : Option JSStr) : JSStr :=
  match category with
  | none => str "Professional Grade"
  | some cat =>
    if cat.isEmpty then str "Professional Grade"
    else
      match categoryKeySpecs.find? (fun kv => includesStr (toLowerStr cat) kv.1) with
      | some kv => kv.2
      | none => str "Professional Grade"

/-- Scanner for the `/\d+\s*UNIT/i` patterns of `inferKeySpecFromSpecs`:
find the leftmost digit run followed by optional whitespace and one of the
given unit alternatives (tried in order, case-insensitively), returning
`digits ++ whitespace ++ matched-unit-text`.  Starting a match inside a
digit run can never succeed when the run start fails, so runs are skipped
whole, tracked by the previous-was-digit flag. -/
def findNumUnitGo (units : List JSStr) : Bool → JSStr → Option JSStr
  | _, [] => none
  | prevDigit, c :: rest =>
    if isDigitCode c && !prevDigit then
      let ds := (c :: rest).takeWhile isDigitCode
      let afterDs := (c :: rest).dropWhile isDigitCode
      let ws := afterDs.takeWhile isWsCode
      let afterWs := afterDs.dropWhile isWsCode
      match units.find? (fun u => (toLowerStr u).isPrefixOf (toLowerStr afterWs)) with
      | some u => some (ds ++ ws ++ afterWs.take u.length)
      | none => findNumUnitGo units true rest
    else findNumUnitGo units (isDigitCode c) rest

/-- First match of `/\d+\s*(U1|U2|...)/i` in `s`. -/
def findNumUnit (units : List JSStr) (s : JSStr) : Option JSStr :=
  findNumUnitGo units false s

/-- The capacity-unit alternatives of the extraction regex
`/(\d+\s*(L|GB|TB|MP|ml))/i`; the test regex of the `find` recognizes the
same set of strings. -/
def capacityUnits : List JSStr := [str "L", str "GB", str "TB", str "MP", str "ml"]

/-- The runtime-unit alternatives of `/(\d+\s*(min|minute|hour|hr))/i`. -/
def runtimeUnits : List JSStr := [str "min", str "minute", str "hour", str "hr"]

/-- Model of the key-part extraction, split at the first comma, first 20 characters, trimmed,
fallback (lines 129-134). -/
def numericSpecKeyPart (spec : JSStr) : JSStr :=
  trimStr (((spec.splitOn 44).headD []).take 20)

/-- Model of `inferKeySpecFromSpecs` (lines 96-137): power spec, else capacity spec,
else runtime spec, else first spec containing a digit, else the category
table.  The power alternatives `(W|w|Watt|watt)` all begin with `w`, so the
unit list `["w"]` recognizes the same strings under `/i`. -/
def inferKeySpecFromSpecs (specifications : List JSStr) (category : Option JSStr) : JSStr :=
  if specifications.isEmpty then inferKeySpecFromCategory category
  else
    match specifications.find? (fun spec => (findNumUnit [str "w"] spec).isSome) with
    | some powerSpec =>
      match findNumUnit [str "w"] powerSpec with
      | some m => toUpperStr (m.filter (fun c => !isWsCode c))
      | none => str "Professional Grade"
    | none =>
      match specifications.find? (fun spec => (findNumUnit capacityUnits spec).isSome) with
      | some capacitySpec =>
        match findNumUnit capacityUnits capacitySpec with
        | some m => m.filter (fun c => !isWsCode c)
        | none => str "Professional Grade"
      | none =>
        match specifications.find? (fun spec => (findNumUnit runtimeUnits spec).isSome) with
        | some runtimeSpec =>
          match findNumUnit runtimeUnits runtimeSpec with
          | some m => m
          | none => str "Professional Grade"
        | none =>
          match specifications.find? (fun spec => spec.any isDigitCode) with
          | some numericSpec => numericSpecKeyPart numericSpec
          | none => inferKeySpecFromCategory category

/-- The seen-set dedup loop of `removeDuplicateWords` (lines 176-190). -/
def dedupByLower : List JSStr → List JSStr → List JSStr
  | [], _ => []
  | w :: ws, seen =>
    if toLowerStr w ∈ seen then dedupByLower ws seen
    else w :: dedupByLower ws (toLowerStr w :: seen)

/-- Model of `removeDuplicateWords` (lines 176-190). -/
def removeDuplicateWords (s : JSStr) : JSStr :=
  joinSp (dedupByLower (s.splitOn 32) [])

/-- Model of `formatProductTitle` (lines 195-225). -/
def formatProductTitle (productName : JSStr) (specifications : List JSStr)
    (category : Option JSStr) : JSStr :=
  let tc := parseProductName productName
  let finalKeySpec :=
    if tc.keySpec.isEmpty || decide ((tc.keySpec.splitOn 32).length < 1) then
      inferKeySpecFromSpecs specifications category
    else tc.keySpec
  let fullTitle := tc.brand ++ [32] ++ tc.model ++ [32] ++ finalKeySpec
  let fullTitle2 := removeDuplicateWords fullTitle
  let fullTitle3 := collapseWs (trimStr fullTitle2)
  let parts := fullTitle3.splitOn 32
  if parts.length < 3 then
    removeDuplicateWords (fullTitle3 ++ [32] ++ inferKeySpecFromCategory category)
  else fullTitle3

/-- C6 counterexample: on "jimmy h8 flex" with no specifications and category
"vacuum", the formatter keeps "flex" as the key spec taken from the name, so
the final title is "Jimmy h8 flex" and does not contain
"Cordless Vacuum Cleaner". -/
theorem formatProductTitle_jimmy_counterexample :
    formatProductTitle (str "jimmy h8 flex") [] (some (str "vacuum")) = str "Jimmy h8 flex" ∧
    includesStr (formatProductTitle (str "jimmy h8 flex") [] (some (str "vacuum")))
      (str "Cordless Vacuum Cleaner") = false := by
  decide

/-- C6 (amended): "jimmy h8 flex" parses to brand "Jimmy", model token "h8",
and key spec "flex" taken from the remaining words ("flex" is not a model
token, so the category is never consulted); the final title is
"Jimmy h8 flex", which has at least 3 words. -/
theorem formatProductTitle_jimmy_amended :
    parseProductName (str "jimmy h8 flex") = ⟨str "Jimmy", str "h8", str "flex"⟩ ∧
    isModelIdentifier (str "h8") = true ∧
    isModelIdentifier (str "flex") = false ∧
    formatProductTitle (str "jimmy h8 flex") [] (some (str "vacuum")) = str "Jimmy h8 flex" ∧
    3 ≤ ((formatProductTitle (str "jimmy h8 flex") [] (some (str "vacuum"))).splitOn 32).length := by
  decide

theorem wordsOfName_all_ws (s : JSStr) (h : ∀ c ∈ s, isWsCode c = true) :
    wordsOfName s = [] := by
  have ht : trimStr s = [] := by
    unfold trimStr
    rw [List.dropWhile_eq_nil_iff.mpr h]
    simp
  unfold wordsOfName
  rw [ht]
  simp [collapseWs, collapseWsGo]

theorem parseProductName_no_words (s : JSStr) (h : wordsOfName s = []) :
    parseProductName s = ⟨str "Generic", str "Product", str "Standard"⟩ := by
  unfold parseProductName
  rw [h]

/-- C9: for an empty or all-whitespace product name with no specifications
and no category, the formatter returns exactly the fixed fallback title
"Generic Product Standard" (and the embedding is a total function of every
input, so no input can make it throw). -/
theorem formatProductTitle_ws_fallback (s : JSStr) (h : ∀ c ∈ s, isWsCode c = true) :
    formatProductTitle s [] none = str "Generic Product Standard" := by
  unfold formatProductTitle
  rw [parseProductName_no_words s (wordsOfName_all_ws s h)]
  decide

/-- C9 witness: the fallback at the concrete two-space name. -/
theorem formatProductTitle_ws_fallback_witness :
    formatProductTitle (str "  ") [] none = str "Generic Product Standard" :=
  formatProductTitle_ws_fallback (str "  ") (by decide)

/-! ## Catalog importer retry (src/unnamed/part_000 lines 430-481) -/

/-- The WooCommerce duplicate-SKU error code. -/
def productInvalidSkuCode : JSStr := str "product_invalid_sku"

/-- The WooCommerce image-upload error code. -/
def imageUploadErrorCode : JSStr := str "woocommerce_product_image_upload_error"

/-- One parsed catalog API response: HTTP ok flag and the error code field
of its JSON body, if any. -/
structure WooResponse where
  ok : Bool
  code : Option JSStr
deriving DecidableEq

/-- Model of `generateUniqueSku` (lines 454-458): base SKU, hyphen, `Date.now()` in
base 36, then `Math.random().toString(36).substring(2, 6)` — characters
[2,6) of the random string, whose leading "0." occupies positions 0-1, so 4
random fraction digits. -/
def generateUniqueSku (baseSku : JSStr) (nowMs : Nat) (randomStr : JSStr) : JSStr :=
  baseSku ++ [45] ++ toBase36 nowMs ++ (randomStr.drop 2).take 4

/-- One submission attempt: the SKU of the payload and whether the payload
carried the image list. -/
structure WooAttempt where
  sku : JSStr
  withImages : Bool
deriving DecidableEq

/-- The submission flow of the import endpoint (lines 460-481): first POST,
at most one duplicate-SKU retry with a regenerated SKU, at most one
image-failure retry without images.  The replies of the catalog are the oracle
list `responses`, consumed one per POST; the result is the list of attempted
payloads in order and the response the handler then reports. -/
def importSubmitFlow (responses : List WooResponse) (sku : JSStr) (nowMs : Nat)
    (randomStr : JSStr) : List WooAttempt × WooResponse :=
  let r1 := responses.getD 0 ⟨false, none⟩
  let afterSku : List WooAttempt × JSStr × WooResponse :=
    if !r1.ok && r1.code == some productInvalidSkuCode then
      let u := generateUniqueSku sku nowMs randomStr
      ([⟨sku, true⟩, ⟨u, true⟩], u, responses.getD 1 ⟨false, none⟩)
    else ([⟨sku, true⟩], sku, r1)
  let r2 := afterSku.2.2
  if !r2.ok && r2.code == some imageUploadErrorCode then
    (afterSku.1 ++ [⟨afterSku.2.1, false⟩], responses.getD afterSku.1.length ⟨false, none⟩)
  else (afterSku.1, r2)

/-- C5 counterexample: the regenerated SKU carries four random characters,
not two.  At SKU "jimmy-h8", timestamp 1700000000000 and random string
"0.k5j8x2ab", no choice of two trailing characters matches the output of
`generateUniqueSku`. -/
theorem generateUniqueSku_two_chars_counterexample :
    ¬ ∃ c1 c2 : Nat,
      generateUniqueSku (str "jimmy-h8") 1700000000000 (str "0.k5j8x2ab") =
        str "jimmy-h8" ++ [45] ++ toBase36 1700000000000 ++ [c1, c2] := by
  rintro ⟨c1, c2, h⟩
  have hl := congrArg List.length h
  have h1 : (generateUniqueSku (str "jimmy-h8") 1700000000000 (str "0.k5j8x2ab")).length
      = 21 := by decide
  have h2 : (str "jimmy-h8" ++ [45] ++ toBase36 1700000000000).length = 17 := by decide
  rw [h1, List.length_append, h2] at hl
  simp at hl

/-- C5 (amended): when the first POST fails with the duplicate-SKU code, the
flow resubmits exactly once with the regenerated SKU
`original ++ "-" ++ base36(Date.now()) ++ 4 random characters`; the
regenerated SKU differs from the original; and when the resubmission also
fails with the duplicate-SKU code no further attempt is made — the flow
stops after the two attempts and reports that failure. -/
theorem importFlow_duplicate_sku_retry (responses : List WooResponse) (sku : JSStr)
    (nowMs : Nat) (randomStr : JSStr)
    (h1 : responses.getD 0 ⟨false, none⟩ = ⟨false, some productInvalidSkuCode⟩)
    (h2 : responses.getD 1 ⟨false, none⟩ = ⟨false, some productInvalidSkuCode⟩) :
    (importSubmitFlow responses sku nowMs randomStr).1 =
      [⟨sku, true⟩, ⟨generateUniqueSku sku nowMs randomStr, true⟩] ∧
    generateUniqueSku sku nowMs randomStr ≠ sku ∧
    (importSubmitFlow responses sku nowMs randomStr).2 =
      ⟨false, some productInvalidSkuCode⟩ := by
  have hne : generateUniqueSku sku nowMs randomStr ≠ sku := by
    intro he
    have hl := congrArg List.length he
    simp only [generateUniqueSku, List.length_append] at hl
    have := toBase36_length_pos nowMs
    omega
  have htrue : (some productInvalidSkuCode == some productInvalidSkuCode) = true := by decide
  have hfalse : (some productInvalidSkuCode == some imageUploadErrorCode) = false := by decide
  constructor
  · simp only [importSubmitFlow]
    rw [h1, h2]
    simp [htrue, hfalse]
  refine ⟨hne, ?_⟩
  simp only [importSubmitFlow]
  rw [h1, h2]
  simp [htrue, hfalse]

/-- C5 witness: the retry flow at concrete inputs where both the first and
the second POST report a duplicate SKU. -/
theorem importFlow_duplicate_sku_retry_witness :
    (importSubmitFlow
        [⟨false, some productInvalidSkuCode⟩, ⟨false, some productInvalidSkuCode⟩]
        (str "jimmy-h8") 1700000000000 (str "0.k5j8x2ab")).1 =
      [⟨str "jimmy-h8", true⟩,
       ⟨generateUniqueSku (str "jimmy-h8") 1700000000000 (str "0.k5j8x2ab"), true⟩] ∧
    generateUniqueSku (str "jimmy-h8") 1700000000000 (str "0.k5j8x2ab") ≠ str "jimmy-h8" ∧
    (importSubmitFlow
        [⟨false, some productInvalidSkuCode⟩, ⟨false, some productInvalidSkuCode⟩]
        (str "jimmy-h8") 1700000000000 (str "0.k5j8x2ab")).2 =
      ⟨false, some productInvalidSkuCode⟩ :=
  importFlow_duplicate_sku_retry
    [⟨false, some productInvalidSkuCode⟩, ⟨false, some productInvalidSkuCode⟩]
    (str "jimmy-h8") 1700000000000 (str "0.k5j8x2ab") (by decide) (by decide)

/-! ## Health prober (src/unnamed/part_002) -/

/-- The five health statuses. -/
inductive HealthStatus
  | connected
  | authentication_failed
  | invalid_credentials
  | network_error
  | missing_credentials
deriving DecidableEq

/-- The credential environment read by the probe. -/
structure HealthEnv where
  wooUrl : Option JSStr
  consumerKey : Option JSStr
  consumerSecret : Option JSStr

/-- Outcome of the single `fetch` of the probe: a transport-level failure, or a
response with an HTTP status and whether its body parses as JSON. -/
inductive FetchOutcome
  | failure
  | response (status : Nat) (bodyIsJson : Bool)
deriving DecidableEq

/-- JavaScript falsiness of `Deno.env.get(...)`: undefined or empty string. -/
def credMissing : Option JSStr → Bool
  | none => true
  | some s => s.isEmpty

/-- The health-check handler (src/unnamed/part_002 lines 31-209): the
returned status, and whether the GET was performed at all.  The JSON parse
is attempted before any status check, so a non-JSON body is a network error
whatever the status; `response.ok` is `200 ≤ status ≤ 299`. -/
def checkHealth (env : HealthEnv) (fetch : FetchOutcome) : HealthStatus × Bool :=
  if credMissing env.wooUrl || credMissing env.consumerKey ||
      credMissing env.consumerSecret then
    (HealthStatus.missing_credentials, false)
  else
    match fetch with
    | FetchOutcome.failure => (HealthStatus.network_error, true)
    | FetchOutcome.response status bodyIsJson =>
      if !bodyIsJson then (HealthStatus.network_error, true)
      else if status == 401 then (HealthStatus.authentication_failed, true)
      else if status == 403 then (HealthStatus.invalid_credentials, true)
      else if !(decide (200 ≤ status) && decide (status ≤ 299)) then
        (HealthStatus.network_error, true)
      else (HealthStatus.connected, true)

/-- C8: the full status map of the health probe — missing credentials
short-circuit without any network call; otherwise one GET is made and
transport failure, non-JSON body, 401, 403, other non-2xx, and 2xx JSON map
to network_error, network_error, authentication_failed, invalid_credentials,
network_error, and connected respectively. -/
theorem checkHealth_spec (env : HealthEnv) (fetch : FetchOutcome) :
    ((credMissing env.wooUrl || credMissing env.consumerKey ||
        credMissing env.consumerSecret) = true →
      checkHealth env fetch = (HealthStatus.missing_credentials, false)) ∧
    ((credMissing env.wooUrl || credMissing env.consumerKey ||
        credMissing env.consumerSecret) = false →
      (fetch = FetchOutcome.failure →
        checkHealth env fetch = (HealthStatus.network_error, true)) ∧
      (∀ st : Nat, fetch = FetchOutcome.response st false →
        checkHealth env fetch = (HealthStatus.network_error, true)) ∧
      (fetch = FetchOutcome.response 401 true →
        checkHealth env fetch = (HealthStatus.authentication_failed, true)) ∧
      (fetch = FetchOutcome.response 403 true →
        checkHealth env fetch = (HealthStatus.invalid_credentials, true)) ∧
      (∀ st : Nat, fetch = FetchOutcome.response st true → st ≠ 401 → st ≠ 403 →
        ¬(200 ≤ st ∧ st ≤ 299) →
        checkHealth env fetch = (HealthStatus.network_error, true)) ∧
      (∀ st : Nat, fetch = FetchOutcome.response st true → 200 ≤ st → st ≤ 299 →
        checkHealth env fetch = (HealthStatus.connected, true))) := by
  constructor
  · intro h
    simp [checkHealth, h]
  · intro h
    refine ⟨fun hf => ?_, fun st hf => ?_, fun hf => ?_, fun hf => ?_,
      fun st hf h401 h403 hrange => ?_, fun st hf h200 h299 => ?_⟩ <;>
      subst hf <;> simp [checkHealth, h]
    · rw [if_neg h401, if_neg h403, if_pos (by omega)]
    · rw [if_neg (by omega), if_neg (by omega), if_neg (by omega)]

/-- C8 witness: a missing URL short-circuits to missing_credentials with no
call; with full credentials a 401 JSON response maps to
authentication_failed. -/
theorem checkHealth_spec_witness :
    checkHealth ⟨none, some (str "ck"), some (str "cs")⟩ (FetchOutcome.response 200 true) =
      (HealthStatus.missing_credentials, false) ∧
    checkHealth ⟨some (str "https://shop.example"), some (str "ck"), some (str "cs")⟩
        (FetchOutcome.response 401 true) =
      (HealthStatus.authentication_failed, true) :=
  ⟨(checkHealth_spec ⟨none, some (str "ck"), some (str "cs")⟩
      (FetchOutcome.response 200 true)).1 (by decide),
   ((checkHealth_spec ⟨some (str "https://shop.example"), some (str "ck"), some (str "cs")⟩
      (FetchOutcome.response 401 true)).2 (by decide)).2.2.1 rfl⟩
